import Mathlib

/-!
Shallow embedding of the cubeglobe voxel-terrain generator and isometric
renderer (Rust), for checking the natural-language specification against
the code.

Modelling conventions:
* `usize` is `Nat`; unchecked `usize` subtraction (which panics on
  underflow in the source's debug builds, and produces an out-of-range
  slice bound that makes `ndarray` panic in release builds) is modelled
  by `checkedSub`, returning `none` on underflow.
* `f64` noise samples are modelled as exact rationals (`ℚ`); `as usize`
  on a nonnegative `f64` truncates toward zero, i.e. takes the floor,
  and saturates negative values to `0` (`toUsize`).
* `ndarray` slice-assignments `slice_mut(s![x, y, a..b]).fill(v)` panic
  when `a > b` or `b > len`; `fillRange` returns `none` in that case.
* A fallible computation (one that can panic) returns `Option`;
  a `none` result models a panic of the original code.
* `rand`'s `gen_range(lo, hi)` panics when `lo ≥ hi` and otherwise
  returns a uniform value in `[lo, hi)`; the draw is modelled by an
  arbitrary natural `d` mapped to `lo + d % (hi - lo)`, so that every
  value of the range is reachable and claims quantify over all draws.
-/

/-- Embeds `Block` from `src/map/mod.rs`: the material of a voxel.
Declaration order matters: `enum_iterator` iterates it in this order. -/
inductive Block where
  | Air
  | Rock
  | Grass
  | Soil
  | Water
deriving DecidableEq, Repr, Fintype

/-- Embeds `enum_iterator::IntoEnumIterator` for `Block`: all variants in
declaration order. -/
def allBlocks : List Block :=
  [Block.Air, Block.Rock, Block.Grass, Block.Soil, Block.Water]

/-- A voxel grid, `IsoMap`'s `Array3<Block>`, as nested lists indexed
`grid[x][y][z]`. -/
abbrev Grid := List (List (List Block))

/-- The grid is a cube of edge `len` (the `IsoMap` invariant: an
`Array3` of dimensions `(len, len, len)`). -/
def IsCube (len : Nat) (g : Grid) : Prop :=
  g.length = len ∧ ∀ row ∈ g, row.length = len ∧ ∀ col ∈ row, col.length = len

instance (len : Nat) (g : Grid) : Decidable (IsCube len g) := by
  unfold IsCube; infer_instance

/-- Voxel lookup `isomap.0[[x, y, z]]` with `Air` as the (unreachable
in-bounds) fallback. -/
def voxelAt (g : Grid) (x y z : Nat) : Block :=
  ((g.getD x []).getD y []).getD z Block.Air

/-- Unsigned subtraction as the source performs it: `a - b` on `usize`
panics (debug) or yields an invalid slice bound (release) when `b > a`. -/
def checkedSub (a b : Nat) : Option Nat :=
  if b ≤ a then some (a - b) else none

/-- Embeds `slice_mut(s![x, y, a..b]).fill(v)` on one column: replaces indices
`[a, b)` with `v`; panics (`none`) unless `a ≤ b ≤ len`. -/
def fillRange (col : List Block) (a b : Nat) (v : Block) : Option (List Block) :=
  if a ≤ b ∧ b ≤ col.length then
    some (col.take a ++ List.replicate (b - a) v ++ col.drop b)
  else
    none

/-- Single-voxel store `isomap.0[[x, y, z]] = v`; panics (`none`) when
out of bounds. -/
def setVoxel (col : List Block) (i : Nat) (v : Block) : Option (List Block) :=
  if i < col.length then some (col.set i v) else none

/-- Embeds `as usize` applied to a (nonnegative-or-small) `f64`: truncation
toward zero, saturating at `0` for negative inputs. -/
def toUsize (q : ℚ) : Nat :=
  if q < 0 then 0 else (Int.floor q).toNat

/-- Sequence a list of fallible results, as a Rust loop does: the first
panic aborts the whole computation. -/
def optList {α : Type} : List (Option α) → Option (List α)
  | [] => some []
  | o :: rest => o.bind fun a => (optList rest).bind fun l => some (a :: l)

/-- The elevation of column `(x, y)`:
`(half_height + noise.get([x, y]) * half_height) as usize`,
where `half_height = len as f64 / 2.0`. Shared by both generators. -/
def heightOf (len : Nat) (sample : ℚ) : Nat :=
  toUsize ((len : ℚ) / 2 + sample * ((len : ℚ) / 2))

/-- Configuration of the simple generator (`TerGenOne` in
`src/map/generator/tergenone.rs`). -/
structure TerGenOne where
  len : Nat
  frequency : ℚ
deriving DecidableEq, Repr

def TerGenOne.DEFAULT_LEN : Nat := 64

def TerGenOne.DEFAULT_FREQUENCY : ℚ := 0.05

/-- Embeds `TerGenOne::set_len`. -/
def TerGenOne.set_len (g : TerGenOne) (len : Nat) : TerGenOne :=
  { g with len := len }

/-- Embeds `TerGenOne::set_frequency`. -/
def TerGenOne.set_frequency (g : TerGenOne) (freq : ℚ) : TerGenOne :=
  { g with frequency := freq }

/-- Embeds `TerGenOne::new`. -/
def TerGenOne.new : TerGenOne :=
  { len := TerGenOne.DEFAULT_LEN, frequency := TerGenOne.DEFAULT_FREQUENCY }

/-- The `#[derive(Default)]` configuration: every field is its type's
zero default. -/
def TerGenOne.defaultDerived : TerGenOne :=
  { len := 0, frequency := 0 }

/-- One column of `TerGenOne::generate`: fill `z ∈ [0, height)` with
Rock in a fresh all-Air column. -/
def genColumnOne (len ht : Nat) : Option (List Block) :=
  fillRange (List.replicate len Block.Air) 0 ht Block.Rock

/-- Embeds `TerGenOne::generate`, parameterized by the (externally produced)
height-noise samples `noise x y ∈ [-1, 1]`. -/
def TerGenOne.generate (g : TerGenOne) (noise : Nat → Nat → ℚ) : Option Grid :=
  optList <| (List.range g.len).map fun x =>
    optList <| (List.range g.len).map fun y =>
      genColumnOne g.len (heightOf g.len (noise x y))

/-- Configuration of the stratified generator (`TerGenTwo` in
`src/map/generator/tergentwo.rs`). -/
structure TerGenTwo where
  len : Nat
  frequency : ℚ
  layer_height : Nat
  min_soil_cutoff : Nat
  max_water_level : Nat
deriving DecidableEq, Repr

def TerGenTwo.DEFAULT_LEN : Nat := 64

def TerGenTwo.DEFAULT_FREQUENCY : ℚ := 0.05

def TerGenTwo.DEFAULT_LAYER_HEIGHT : Nat := 15

def TerGenTwo.DEFAULT_MIN_SOIL_CUTOFF : Nat := 45

def TerGenTwo.DEFAULT_MAX_WATER_LEVEL : Nat := 40

/-- Embeds `TerGenTwo::set_len`. -/
def TerGenTwo.set_len (g : TerGenTwo) (len : Nat) : TerGenTwo :=
  { g with len := len }

/-- Embeds `TerGenTwo::set_frequency`. -/
def TerGenTwo.set_frequency (g : TerGenTwo) (freq : ℚ) : TerGenTwo :=
  { g with frequency := freq }

/-- Embeds `TerGenTwo::set_layer_height`. -/
def TerGenTwo.set_layer_height (g : TerGenTwo) (layer_height : Nat) : TerGenTwo :=
  { g with layer_height := layer_height }

/-- Embeds `TerGenTwo::set_max_water_level`. -/
def TerGenTwo.set_max_water_level (g : TerGenTwo) (max_water_level : Nat) : TerGenTwo :=
  { g with max_water_level := max_water_level }

/-- Embeds `TerGenTwo::set_min_soil_cutoff`. -/
def TerGenTwo.set_min_soil_cutoff (g : TerGenTwo) (min_soil_cutoff : Nat) : TerGenTwo :=
  { g with min_soil_cutoff := min_soil_cutoff }

/-- Embeds `TerGenTwo::new`. -/
def TerGenTwo.new : TerGenTwo :=
  { len := TerGenTwo.DEFAULT_LEN
    frequency := TerGenTwo.DEFAULT_FREQUENCY
    layer_height := TerGenTwo.DEFAULT_LAYER_HEIGHT
    min_soil_cutoff := TerGenTwo.DEFAULT_MIN_SOIL_CUTOFF
    max_water_level := TerGenTwo.DEFAULT_MAX_WATER_LEVEL }

/-- The `#[derive(Default)]` configuration: every field is its type's
zero default. -/
def TerGenTwo.defaultDerived : TerGenTwo :=
  { len := 0, frequency := 0, layer_height := 0
    min_soil_cutoff := 0, max_water_level := 0 }

/-- One column of `TerGenTwo::generate`: the three-band fill for a
column of computed elevation `ht` and soil depth `soilDepth`, in a
fresh all-Air column of length `len`.

Mirrors `tergentwo.rs` lines 127–159; every `usize` subtraction of the
source other than `saturating_sub` goes through `checkedSub`, in the
evaluation order of the source (the condition `rock_height < height-1`
computes `height - 1` before comparing). -/
def genColumnTwo (waterLevel soilLevel ht soilDepth len : Nat) :
    Option (List Block) :=
  let col := List.replicate len Block.Air
  if ht < waterLevel then
    -- Rock, and then water up to the water level
    (checkedSub ht 1).bind fun h1 =>
    (fillRange col 0 h1 Block.Rock).bind fun col =>
    (checkedSub waterLevel 1).bind fun w1 =>
    fillRange col h1 w1 Block.Water
  else if ht < soilLevel then
    -- Rock, and then soil, then a single block of grass
    let rockHeight := ht - soilDepth   -- height.saturating_sub(soil_depth)
    (fillRange col 0 rockHeight Block.Rock).bind fun col =>
    (checkedSub ht 1).bind fun h1 =>
    (if rockHeight < h1 then fillRange col rockHeight h1 Block.Soil
     else some col).bind fun col =>
    if rockHeight < ht then setVoxel col (ht - 1) Block.Grass else some col
  else
    -- Just rock
    fillRange col 0 ht Block.Rock

/-- Embeds `TerGenTwo::generate`, parameterized by the per-call random draws
(`waterDraw`, `soilDraw` feed the two `gen_range` calls) and the two
externally produced noise fields. `layerNoise` is `Abs(Billow)`, already
absolute-valued in the source.

`gen_range(min_soil_cutoff, len)` panics unless
`min_soil_cutoff < len`; `gen_range(0, max_water_level + 1)` never
panics. -/
def TerGenTwo.generate (g : TerGenTwo) (waterDraw soilDraw : Nat)
    (heightNoise layerNoise : Nat → Nat → ℚ) : Option Grid :=
  if g.min_soil_cutoff < g.len then
    let waterLevel := waterDraw % (g.max_water_level + 1)
    let soilLevel := g.min_soil_cutoff + soilDraw % (g.len - g.min_soil_cutoff)
    optList <| (List.range g.len).map fun x =>
      optList <| (List.range g.len).map fun y =>
        genColumnTwo waterLevel soilLevel
          (heightOf g.len (heightNoise x y))
          (toUsize (layerNoise x y * (g.layer_height : ℚ)))
          g.len
  else
    none

/-- The topmost non-Air voxel of a column (the filled voxel with the
largest `z`), if any. -/
def topFilled (col : List Block) : Option Block :=
  (col.filter fun b => b ≠ Block.Air).getLast?

/-! ## Renderer (`src/renderer/mod.rs`) -/

/-- Embeds `top_height`: pixel height of the cube's top face, `self.width / 2`
(2:1 projection). -/
def topHeight (w : Nat) : Nat := w / 2

/-- Embeds `sides_height`: pixel height of the cube's sides,
`self.height - top_height`. -/
def sidesHeight (w h : Nat) : Nat := h - topHeight w

/-- Embeds `floor_height`: vertical pixel extent of one z-layer,
`isomap.len() * top_height + sides_height`. -/
def floorHeight (w h len : Nat) : Nat := len * topHeight w + sidesHeight w h

/-- Embeds `(surf_width, surf_height)` computed at the top of
`Renderer::render_map`. -/
def canvasSize (w h len : Nat) : Nat × Nat :=
  (w * len + w * 2, floorHeight w h len + sidesHeight w h * len + h * 2)

/-- The initial `current_origin`:
`(surf_width/2 - width/2, surf_height - height - floor_height)`
(the first two in `u32`, the last cast through `i32`). -/
def initialOrigin (w h len : Nat) : Int × Int :=
  ((((canvasSize w h len).1 / 2 - w / 2 : Nat) : Int),
   ((canvasSize w h len).2 : Int) - (h : Int) - (floorHeight w h len : Int))

/-- Embeds `Renderer::get_tile_pos`: pixel position of the tile at map position
`(x, y)` relative to `origin`. -/
def getTilePos (w : Nat) (origin : Int × Int) (x y : Nat) : Int × Int :=
  (origin.1 + ((x : Int) - (y : Int)) * ((w : Int) / 2),
   origin.2 + ((x : Int) + (y : Int)) * ((w : Int) / 4))

/-- One sprite blit issued by `render_map`: which voxel `(x, y, z)` it
came from, the destination pixel position, and the voxel's material
(the atlas key that is looked up for it). -/
structure Draw where
  z : Nat
  x : Nat
  y : Nat
  dest : Int × Int
  block : Block
deriving DecidableEq, Repr

/-- The blits of one floor (one constant-`z` slice), in the iteration
order of `floor.indexed_iter()` (`x` outer, `y` inner); `Air` voxels
are skipped (`continue`). -/
def floorDraws (w : Nat) (g : Grid) (len : Nat) (origin : Int × Int) (z : Nat) :
    List Draw :=
  (List.range len).flatMap fun x =>
    (List.range len).flatMap fun y =>
      let b := voxelAt g x y z
      if b = Block.Air then [] else [⟨z, x, y, getTilePos w origin x y, b⟩]

/-- The floors loop of `render_map`: draw floor `z`, then shift
`current_origin` up by `sides_height` and continue with floor `z + 1`;
the last argument counts the remaining floors. -/
def renderFloors (w sidesH len : Nat) (g : Grid) :
    Int × Int → Nat → Nat → List Draw
  | _, _, 0 => []
  | origin, z, n + 1 =>
      floorDraws w g len origin z ++
      renderFloors w sidesH len g (origin.1, origin.2 - (sidesH : Int)) (z + 1) n

/-- All blits issued by `Renderer::render_map` on a cubic grid of edge
`len`, in order. (The blit and surface primitives themselves are the
external SDL collaborator; a render call that does not fail performs
exactly these draws in this order.) -/
def renderDraws (w h len : Nat) (g : Grid) : List Draw :=
  renderFloors w (sidesHeight w h) len g (initialOrigin w h len) 0 len

/-! ## Atlas construction (`Renderer::from_config_str` and
`src/renderer/errors.rs`) -/

/-- A deserialized `[[files.tiles]]` entry. -/
structure TileDef where
  kind : Block
  x : Option Int
  y : Option Int
deriving DecidableEq, Repr

/-- A deserialized `[[files]]` entry. -/
structure File where
  filename : String
  tiles : List TileDef
deriving DecidableEq, Repr

/-- The deserialized `tiles.toml` (`TilesConfig`). -/
structure TilesConfig where
  width : Nat
  height : Nat
  files : List File
  base_path : String
deriving DecidableEq, Repr

/-- A `Tile`: the sheet it is cut from and the upper-left corner of its
source rectangle (the rectangle's size is the shared tile size). -/
structure Tile where
  sheet : String
  pos : Int × Int
deriving DecidableEq, Repr

/-- Embeds `ConfigLoadErrorKind` from `src/renderer/errors.rs`. -/
inductive ConfigLoadErrorKind where
  | TomlParseError
  | SDLError (s : String)
  | MissingBlock (b : Block)
deriving DecidableEq, Repr

/-- Embeds `Renderer` (the loaded atlas): tile size and the per-material tile
lists, kept as the flattened association list the source builds them
from (`contains_key b` is membership of `b` among the first
components). -/
structure Renderer where
  width : Nat
  height : Nat
  tiles : List (Block × Tile)
deriving DecidableEq, Repr

/-- The `(Block, Tile)` pairs `from_config_str` collects over all files
before grouping them into the hash map. -/
def tilePairs (files : List File) : List (Block × Tile) :=
  files.flatMap fun f =>
    f.tiles.map fun t => (t.kind, ⟨f.filename, (t.x.getD 0, t.y.getD 0)⟩)

/-- The `for block in Block::into_enum_iter()` loop: skip `Air`, and
return the first block that has no tile registered. -/
def firstMissing (keys : List Block) : List Block → Option Block
  | [] => none
  | b :: rest =>
      if b = Block.Air then firstMissing keys rest
      else if b ∈ keys then firstMissing keys rest
      else some b

/-- Embeds `Renderer::from_config_str`, modelled after TOML deserialization:
parse failures and image-load failures are the external collaborators'
(`toml`, SDL) and are taken as already succeeded; what remains is the
missing-tile check over the collected tile pairs and the construction
of the `Renderer`. -/
def Renderer.from_config_str (cfg : TilesConfig) :
    Except ConfigLoadErrorKind Renderer :=
  let pairs := tilePairs cfg.files
  match firstMissing (pairs.map Prod.fst) allBlocks with
  | some b => Except.error (ConfigLoadErrorKind.MissingBlock b)
  | none => Except.ok ⟨cfg.width, cfg.height, pairs⟩

/-! ## Definitions supporting the claims -/

/-- The three elevation bands of the stratified generator. -/
inductive Band where
  | water
  | soil
  | rock
deriving DecidableEq, Repr

/-- The branch selector of `TerGenTwo::generate`'s per-column
`if`/`else if`/`else` chain (`tergentwo.rs` lines 127, 134, 156): which
band a column of elevation `ht` falls in. -/
def bandOf (waterLevel soilLevel ht : Nat) : Band :=
  if ht < waterLevel then Band.water
  else if ht < soilLevel then Band.soil
  else Band.rock

/-- Canvas dimensions as the specification words them (§4.4):
`top_height = tile_width/2`, `sides_height = tile_height - top_height`,
`floor_height = grid_len * top_height + sides_height`,
`canvas_width = tile_width * grid_len + tile_width * 2`,
`canvas_height = floor_height + sides_height * grid_len + tile_height * 2`. -/
def specCanvasSize (tile_width tile_height grid_len : Nat) : Nat × Nat :=
  let top_height := tile_width / 2
  let sides_height := tile_height - top_height
  let floor_height := grid_len * top_height + sides_height
  (tile_width * grid_len + tile_width * 2,
   floor_height + sides_height * grid_len + tile_height * 2)

/-! ## Claim theorems (first batch) -/

/-- Claim **C5**: Canvas dimensions are a pure function of
`(tile_width, tile_height, grid_len)` given by the spec's formulas
(`top_height = tile_width/2`, `sides_height = tile_height - top_height`,
`floor_height = grid_len * top_height + sides_height`,
`canvas_width = tile_width * grid_len + tile_width * 2`,
`canvas_height = floor_height + sides_height * grid_len + tile_height * 2`);
for `tile_width = 24`, `tile_height = 26`, `grid_len = 6` the canvas is
`192 × 222` pixels. -/
theorem canvas_size_formula :
    (∀ w h len, canvasSize w h len = specCanvasSize w h len) ∧
    canvasSize 24 26 6 = (192, 222) :=
  ⟨fun _ _ _ => rfl, by decide⟩

/-- Claim **C9**: Each builder-style setter returns a new configuration value
whose named field equals the argument and whose other fields equal the
input configuration's; `new()` returns the documented generator-specific
defaults (`L = 64`, `frequency = 0.05`; for the stratified generator
additionally `H = 15`, `S = 45`, `W = 40`). -/
theorem builder_setters_and_defaults :
    (∀ (g : TerGenOne) (v : Nat),
      (g.set_len v).len = v ∧ (g.set_len v).frequency = g.frequency) ∧
    (∀ (g : TerGenOne) (q : ℚ),
      (g.set_frequency q).frequency = q ∧ (g.set_frequency q).len = g.len) ∧
    TerGenOne.new = { len := 64, frequency := 0.05 } ∧
    (∀ (g : TerGenTwo) (v : Nat),
      (g.set_len v).len = v ∧
      (g.set_len v).frequency = g.frequency ∧
      (g.set_len v).layer_height = g.layer_height ∧
      (g.set_len v).min_soil_cutoff = g.min_soil_cutoff ∧
      (g.set_len v).max_water_level = g.max_water_level) ∧
    (∀ (g : TerGenTwo) (q : ℚ),
      (g.set_frequency q).frequency = q ∧
      (g.set_frequency q).len = g.len ∧
      (g.set_frequency q).layer_height = g.layer_height ∧
      (g.set_frequency q).min_soil_cutoff = g.min_soil_cutoff ∧
      (g.set_frequency q).max_water_level = g.max_water_level) ∧
    (∀ (g : TerGenTwo) (v : Nat),
      (g.set_layer_height v).layer_height = v ∧
      (g.set_layer_height v).len = g.len ∧
      (g.set_layer_height v).frequency = g.frequency ∧
      (g.set_layer_height v).min_soil_cutoff = g.min_soil_cutoff ∧
      (g.set_layer_height v).max_water_level = g.max_water_level) ∧
    (∀ (g : TerGenTwo) (v : Nat),
      (g.set_min_soil_cutoff v).min_soil_cutoff = v ∧
      (g.set_min_soil_cutoff v).len = g.len ∧
      (g.set_min_soil_cutoff v).frequency = g.frequency ∧
      (g.set_min_soil_cutoff v).layer_height = g.layer_height ∧
      (g.set_min_soil_cutoff v).max_water_level = g.max_water_level) ∧
    (∀ (g : TerGenTwo) (v : Nat),
      (g.set_max_water_level v).max_water_level = v ∧
      (g.set_max_water_level v).len = g.len ∧
      (g.set_max_water_level v).frequency = g.frequency ∧
      (g.set_max_water_level v).layer_height = g.layer_height ∧
      (g.set_max_water_level v).min_soil_cutoff = g.min_soil_cutoff) ∧
    TerGenTwo.new = { len := 64, frequency := 0.05, layer_height := 15,
                      min_soil_cutoff := 45, max_water_level := 40 } :=
  ⟨fun _ _ => ⟨rfl, rfl⟩, fun _ _ => ⟨rfl, rfl⟩, rfl,
   fun _ _ => ⟨rfl, rfl, rfl, rfl, rfl⟩, fun _ _ => ⟨rfl, rfl, rfl, rfl, rfl⟩,
   fun _ _ => ⟨rfl, rfl, rfl, rfl, rfl⟩, fun _ _ => ⟨rfl, rfl, rfl, rfl, rfl⟩,
   fun _ _ => ⟨rfl, rfl, rfl, rfl, rfl⟩, rfl⟩

/-- Claim **C10**: The derived `Default` configuration has every numeric field
zero (unlike `new()`'s documented defaults); with it, the simple
generator returns the degenerate `0×0×0` grid, while the stratified
generator's generate fails for every draw and noise field, because
`gen_range(min_soil_cutoff, len) = gen_range(0, 0)` is an empty range. -/
theorem derived_default_degenerate :
    (TerGenOne.defaultDerived.len = 0 ∧ TerGenOne.defaultDerived.frequency = 0 ∧
     TerGenTwo.defaultDerived.len = 0 ∧ TerGenTwo.defaultDerived.frequency = 0 ∧
     TerGenTwo.defaultDerived.layer_height = 0 ∧
     TerGenTwo.defaultDerived.min_soil_cutoff = 0 ∧
     TerGenTwo.defaultDerived.max_water_level = 0) ∧
    TerGenOne.defaultDerived ≠ TerGenOne.new ∧
    TerGenTwo.defaultDerived ≠ TerGenTwo.new ∧
    (∀ noise, TerGenOne.generate TerGenOne.defaultDerived noise = some [] ∧
      IsCube 0 []) ∧
    (∀ (wd sd : Nat) (hn ln : Nat → Nat → ℚ),
      TerGenTwo.generate TerGenTwo.defaultDerived wd sd hn ln = none) := by
  refine ⟨⟨rfl, rfl, rfl, rfl, rfl, rfl, rfl⟩, ?_, ?_, fun _ => ⟨rfl, by decide⟩,
    fun _ _ _ _ => rfl⟩
  · simp [TerGenOne.defaultDerived, TerGenOne.new, TerGenOne.DEFAULT_LEN,
      TerGenOne.DEFAULT_FREQUENCY]
  · simp [TerGenTwo.defaultDerived, TerGenTwo.new, TerGenTwo.DEFAULT_LEN,
      TerGenTwo.DEFAULT_FREQUENCY]

/-- Claim **C1** (code bug): contrary to the claim, a `height = 0` column does
crash the stratified generator. Concrete failing run: edge length 2,
`water_level = 1`, `soil_level = 1`, height-noise sample `-1` at every
column, so every column's elevation is `height = 0 < water_level`; the
water branch then computes the slice `0..height-1`, and `height - 1`
underflows on `usize`, so `generate` panics (here: evaluates to `none`)
instead of leaving the column Empty. -/
theorem tergentwo_height_zero_crashes :
    heightOf 2 (-1) = 0 ∧
    TerGenTwo.generate
      { len := 2, frequency := 0, layer_height := 0,
        min_soil_cutoff := 1, max_water_level := 1 } 1 0
      (fun _ _ => -1) (fun _ _ => 0) = none := by
  have h : heightOf 2 (-1) = 0 := by norm_num [heightOf, toUsize]
  refine ⟨h, ?_⟩
  have h2 : toUsize (0 * ((0 : Nat) : ℚ)) = 0 := by norm_num [toUsize]
  simp only [TerGenTwo.generate, h, h2]
  decide

/-- Claim **C2 counterexample**: a stratified-generator run in which the
soil-capable band applies to a column (`water_level = 0 ≤ height = 2 <
soil_level = 3`), the column has filled voxels, and yet its topmost
filled voxel is Rock, not Grass: the layer noise is `0`, so
`soil_depth = 0`, `rock_height = height`, and the Grass capstone guard
`rock_height < height` is false. -/
theorem tergentwo_soil_band_rock_cap_cex :
    bandOf (0 % (0 + 1)) (3 + 0 % (4 - 3)) (heightOf 4 0) = Band.soil ∧
    TerGenTwo.generate
      { len := 4, frequency := 0, layer_height := 5,
        min_soil_cutoff := 3, max_water_level := 0 } 0 0
      (fun _ _ => 0) (fun _ _ => 0) =
      some (List.replicate 4 (List.replicate 4
        [Block.Rock, Block.Rock, Block.Air, Block.Air])) ∧
    topFilled [Block.Rock, Block.Rock, Block.Air, Block.Air] = some Block.Rock := by
  have h : heightOf 4 0 = 2 := by norm_num [heightOf, toUsize]; rfl
  have h2 : toUsize (0 * ((5 : Nat) : ℚ)) = 0 := by norm_num [toUsize]
  refine ⟨by rw [h]; decide, ?_, by decide⟩
  simp only [TerGenTwo.generate, h, h2]
  decide

/-- Claim **C3 counterexample**: with edge length 1 (any `L ≤ 45` behaves the
same), the stratified generator configured by `new().set_len(1)` fails
before touching any noise: `gen_range(min_soil_cutoff, len) =
gen_range(45, 1)` is an invalid range and panics, so no `(1,1,1)` grid
is returned. -/
theorem tergentwo_len1_generate_fails_cex :
    (TerGenTwo.new.set_len 1).len = 1 ∧
    TerGenTwo.generate (TerGenTwo.new.set_len 1) 0 0
      (fun _ _ => 0) (fun _ _ => 0) = none :=
  ⟨rfl, rfl⟩

/-! ## Supporting lemmas -/

theorem fillRange_length {col col' : List Block} {a b : Nat} {v : Block}
    (h : fillRange col a b v = some col') : col'.length = col.length := by
  unfold fillRange at h
  split at h
  · rename_i hc
    cases h
    simp only [List.length_append, List.length_take, List.length_replicate,
      List.length_drop]
    omega
  · cases h

theorem setVoxel_length {col col' : List Block} {i : Nat} {v : Block}
    (h : setVoxel col i v = some col') : col'.length = col.length := by
  unfold setVoxel at h
  split at h
  · cases h; simp
  · cases h

theorem genColumnTwo_length {wl sl ht sd len : Nat} {col : List Block}
    (h : genColumnTwo wl sl ht sd len = some col) : col.length = len := by
  simp only [genColumnTwo] at h
  split at h
  · simp only [Option.bind_eq_some] at h
    obtain ⟨h1, -, c1, hc1, w1, -, h2⟩ := h
    rw [fillRange_length h2, fillRange_length hc1, List.length_replicate]
  · split at h
    · simp only [Option.bind_eq_some] at h
      obtain ⟨c1, hc1, h1, -, c2, hc2, h3⟩ := h
      have e1 : c1.length = len := by
        rw [fillRange_length hc1, List.length_replicate]
      have e2 : c2.length = len := by
        split at hc2
        · rw [fillRange_length hc2, e1]
        · cases hc2; exact e1
      split at h3
      · rw [setVoxel_length h3, e2]
      · cases h3; exact e2
    · rw [fillRange_length h, List.length_replicate]

theorem optList_map_eq_some {α β : Type} {l : List α} {f : α → Option β}
    {g : α → β} (h : ∀ a ∈ l, f a = some (g a)) :
    optList (l.map f) = some (l.map g) := by
  induction l with
  | nil => rfl
  | cons a t ih =>
      simp only [List.map_cons, optList, h a (List.mem_cons_self a t),
        ih fun b hb => h b (List.mem_cons_of_mem a hb), Option.some_bind]

theorem optList_length {α : Type} {l : List (Option α)} {r : List α}
    (h : optList l = some r) : r.length = l.length := by
  induction l generalizing r with
  | nil =>
      simp only [optList, Option.some.injEq] at h
      subst h; rfl
  | cons o t ih =>
      simp only [optList, Option.bind_eq_some, Option.some.injEq] at h
      obtain ⟨a, -, r', hr', hcons⟩ := h
      subst hcons
      simp [ih hr']

theorem optList_mem {α : Type} {l : List (Option α)} {r : List α}
    (h : optList l = some r) : ∀ b ∈ r, some b ∈ l := by
  induction l generalizing r with
  | nil =>
      simp only [optList, Option.some.injEq] at h
      subst h; intro b hb; cases hb
  | cons o t ih =>
      simp only [optList, Option.bind_eq_some, Option.some.injEq] at h
      obtain ⟨a, ha, r', hr', hcons⟩ := h
      subst hcons
      intro b hb
      rcases List.mem_cons.mp hb with hb | hb
      · subst hb; subst ha; exact List.mem_cons_self _ _
      · exact List.mem_cons_of_mem _ (ih hr' b hb)

theorem getD_map_range {α : Type} {n x : Nat} (f : Nat → α) (d : α)
    (h : x < n) : ((List.range n).map f).getD x d = f x := by
  simp [List.getD_eq_getElem?_getD, List.getElem?_map, List.getElem?_range h]

theorem getD_replicate_append (v w d : Block) (m k z : Nat) :
    (List.replicate m v ++ List.replicate k w).getD z d =
      if z < m then v else if z < m + k then w else d := by
  simp only [List.getD_eq_getElem?_getD, List.getElem?_append,
    List.getElem?_replicate, List.length_replicate]
  split
  · simp_all
  · split
    · rename_i h1 h2
      rw [if_pos (by omega)]
      rfl
    · rename_i h1 h2
      rw [if_neg (by omega)]
      rfl

theorem heightOf_le_len {len : Nat} {s : ℚ} (h1 : s ≤ 1) :
    heightOf len s ≤ len := by
  unfold heightOf toUsize
  split
  · exact Nat.zero_le len
  · rw [Int.toNat_le]
    have hle : (len : ℚ) / 2 + s * ((len : ℚ) / 2) ≤ (len : ℚ) := by
      have hnn : (0 : ℚ) ≤ (len : ℚ) / 2 := by positivity
      nlinarith
    calc Int.floor ((len : ℚ) / 2 + s * ((len : ℚ) / 2))
        ≤ Int.floor ((len : ℚ)) := Int.floor_le_floor hle
      _ = (len : Int) := Int.floor_natCast len

theorem genColumnOne_eq {len ht : Nat} (h : ht ≤ len) :
    genColumnOne len ht =
      some (List.replicate ht Block.Rock ++ List.replicate (len - ht) Block.Air) := by
  unfold genColumnOne fillRange
  rw [if_pos ⟨Nat.zero_le ht, by simpa using h⟩]
  simp [List.drop_replicate]
theorem set_grass (r s t i : Nat) (hi : i = r + s) :
    (List.replicate r Block.Rock ++ List.replicate s Block.Soil ++
      List.replicate (t + 1) Block.Air).set i Block.Grass =
    List.replicate r Block.Rock ++ List.replicate s Block.Soil ++
      Block.Grass :: List.replicate t Block.Air := by
  subst hi
  have h1 : ¬ (r + s <
      (List.replicate r Block.Rock ++ List.replicate s Block.Soil).length) := by
    simp only [List.length_append, List.length_replicate]; omega
  have h0 : r + s -
      (List.replicate r Block.Rock ++ List.replicate s Block.Soil).length = 0 := by
    simp only [List.length_append, List.length_replicate]; omega
  rw [List.set_append, if_neg h1, h0, List.replicate_succ]
  rfl

theorem topFilled_grass (r s t : Nat) :
    topFilled (List.replicate r Block.Rock ++ List.replicate s Block.Soil ++
      Block.Grass :: List.replicate t Block.Air) = some Block.Grass := by
  unfold topFilled
  simp [List.filter_append, List.filter_replicate, List.filter_cons,
    List.getLast?_append]

/-- Closed form of the soil-capable band when the column is non-degenerate
(`height ≥ 1`) and the soil depth is positive: a rock base, a soil layer,
and a single Grass capstone at `z = height - 1`. -/
theorem genColumnTwo_soil_grass {wl sl ht sd len : Nat}
    (hwl : wl ≤ ht) (hsl : ht < sl) (hlen : sl ≤ len) (hht : 1 ≤ ht)
    (hsd : 1 ≤ sd) :
    genColumnTwo wl sl ht sd len =
      some (List.replicate (ht - sd) Block.Rock ++
            List.replicate (ht - 1 - (ht - sd)) Block.Soil ++
            Block.Grass :: List.replicate (len - ht) Block.Air) := by
  have hhtlen : ht < len := lt_of_lt_of_le hsl hlen
  have hrh : ht - sd < ht := Nat.sub_lt hht hsd
  have hf1 : fillRange (List.replicate len Block.Air) 0 (ht - sd) Block.Rock =
      some (List.replicate (ht - sd) Block.Rock ++
            List.replicate (len - (ht - sd)) Block.Air) := by
    have h := @genColumnOne_eq len (ht - sd) (by omega)
    simpa [genColumnOne] using h
  have hc : checkedSub ht 1 = some (ht - 1) := by simp [checkedSub, hht]
  simp only [genColumnTwo, if_neg (Nat.not_lt.mpr hwl), if_pos hsl, hf1, hc,
    Option.some_bind]
  rcases Nat.lt_or_ge (ht - sd) (ht - 1) with hcase | hcase
  · -- a nonempty soil layer is written between rock and the capstone
    rw [if_pos hcase]
    have hf2 : fillRange
        (List.replicate (ht - sd) Block.Rock ++
         List.replicate (len - (ht - sd)) Block.Air)
        (ht - sd) (ht - 1) Block.Soil =
        some (List.replicate (ht - sd) Block.Rock ++
              List.replicate (ht - 1 - (ht - sd)) Block.Soil ++
              List.replicate ((len - ht) + 1) Block.Air) := by
      have hcond : ht - sd ≤ ht - 1 ∧ ht - 1 ≤
          (List.replicate (ht - sd) Block.Rock ++
           List.replicate (len - (ht - sd)) Block.Air).length := by
        simp only [List.length_append, List.length_replicate]
        omega
      unfold fillRange
      rw [if_pos hcond]
      have htake : List.take (ht - sd)
          (List.replicate (ht - sd) Block.Rock ++
           List.replicate (len - (ht - sd)) Block.Air) =
          List.replicate (ht - sd) Block.Rock := by
        have e := List.take_left (List.replicate (ht - sd) Block.Rock)
          (List.replicate (len - (ht - sd)) Block.Air)
        rwa [List.length_replicate] at e
      have hdrop : List.drop (ht - 1)
          (List.replicate (ht - sd) Block.Rock ++
           List.replicate (len - (ht - sd)) Block.Air) =
          List.replicate ((len - ht) + 1) Block.Air := by
        have e1 := @List.drop_append Block
          (List.replicate (ht - sd) Block.Rock)
          (List.replicate (len - (ht - sd)) Block.Air)
          (ht - 1 - (ht - sd))
        rw [List.length_replicate] at e1
        rw [show ht - 1 = ht - sd + (ht - 1 - (ht - sd)) from by omega, e1,
          List.drop_replicate]
        congr 1
        omega
      rw [htake, hdrop]
    rw [hf2, Option.some_bind, if_pos hrh]
    have hlen2 : ht - 1 < (List.replicate (ht - sd) Block.Rock ++
        List.replicate (ht - 1 - (ht - sd)) Block.Soil ++
        List.replicate ((len - ht) + 1) Block.Air).length := by
      simp only [List.length_append, List.length_replicate]
      omega
    unfold setVoxel
    rw [if_pos hlen2,
      set_grass (ht - sd) (ht - 1 - (ht - sd)) (len - ht) (ht - 1) (by omega)]
  · -- soil depth 1: the rock base reaches the capstone, no soil in between
    rw [if_neg (Nat.not_lt.mpr hcase), Option.some_bind, if_pos hrh]
    have hshape : List.replicate (ht - sd) Block.Rock ++
        List.replicate (len - (ht - sd)) Block.Air =
        List.replicate (ht - sd) Block.Rock ++
        List.replicate 0 Block.Soil ++
        List.replicate ((len - ht) + 1) Block.Air := by
      have e : len - (ht - sd) = (len - ht) + 1 := by omega
      rw [List.replicate_zero, List.append_nil, e]
    have hlen2 : ht - 1 < (List.replicate (ht - sd) Block.Rock ++
        List.replicate (len - (ht - sd)) Block.Air).length := by
      simp only [List.length_append, List.length_replicate]
      omega
    unfold setVoxel
    rw [if_pos hlen2, hshape,
      set_grass (ht - sd) 0 (len - ht) (ht - 1) (by omega),
      show ht - 1 - (ht - sd) = 0 from by omega]

/-- Claim **C2** (amended): for every column exactly one of the three bands
applies, per the code's strict comparisons (`height < water_level`;
otherwise `height < soil_level`; otherwise bare rock); and whenever the
soil-capable band applies with `height ≥ 1` and a positive computed
`soil_depth`, the column generates successfully and its topmost filled
voxel is Grass. (The unamended claim fails when `soil_depth = 0`: the
column is then capped with Rock — see the counterexample — and when
`height = 0` the column computation underflows.) -/
theorem tergentwo_bands_and_grass_cap (wl sl ht sd len : Nat) :
    ((bandOf wl sl ht = Band.water ↔ ht < wl) ∧
     (bandOf wl sl ht = Band.soil ↔ wl ≤ ht ∧ ht < sl) ∧
     (bandOf wl sl ht = Band.rock ↔ wl ≤ ht ∧ sl ≤ ht)) ∧
    (wl ≤ ht → ht < sl → sl ≤ len → 1 ≤ ht → 1 ≤ sd →
      ∃ col, genColumnTwo wl sl ht sd len = some col ∧
        topFilled col = some Block.Grass) := by
  constructor
  · unfold bandOf
    refine ⟨?_, ?_, ?_⟩ <;> (split <;> try split) <;> simp_all
  · intro h1 h2 h3 h4 h5
    exact ⟨_, genColumnTwo_soil_grass h1 h2 h3 h4 h5, topFilled_grass _ _ _⟩

/-- Witness for `tergentwo_bands_and_grass_cap` at
`water_level = 0`, `soil_level = 3`, `height = 2`, `soil_depth = 1`,
`len = 4`. -/
theorem tergentwo_bands_and_grass_cap_witness :
    (bandOf 0 3 2 = Band.soil ↔ 0 ≤ 2 ∧ 2 < 3) ∧
    ∃ col, genColumnTwo 0 3 2 1 4 = some col ∧
      topFilled col = some Block.Grass :=
  ⟨(tergentwo_bands_and_grass_cap 0 3 2 1 4).1.2.1,
   (tergentwo_bands_and_grass_cap 0 3 2 1 4).2 (by decide) (by decide)
     (by decide) (by decide) (by decide)⟩

/-- Claim **C3** (amended): the simple generator, given in-range noise
(samples ≤ 1), always returns a grid of shape `(L, L, L)`; the
stratified generator can fail to return at all (see the counterexample:
`new().set_len(L)` with `L ≤ 45` panics in
`gen_range(min_soil_cutoff, len)`, and `height = 0` columns can panic),
but every grid it does return has shape `(L, L, L)`. -/
theorem generate_shape_cube :
    (∀ (cfg : TerGenOne) (noise : Nat → Nat → ℚ),
      (∀ x y, noise x y ≤ 1) →
      ∃ g, TerGenOne.generate cfg noise = some g ∧ IsCube cfg.len g) ∧
    (∀ (cfg : TerGenTwo) (wd sd : Nat) (hn ln : Nat → Nat → ℚ) (g : Grid),
      TerGenTwo.generate cfg wd sd hn ln = some g → IsCube cfg.len g) := by
  constructor
  · intro cfg noise hb
    refine ⟨(List.range cfg.len).map fun x => (List.range cfg.len).map fun y =>
        List.replicate (heightOf cfg.len (noise x y)) Block.Rock ++
        List.replicate (cfg.len - heightOf cfg.len (noise x y)) Block.Air,
      ?_, ?_, ?_⟩
    · unfold TerGenOne.generate
      exact optList_map_eq_some fun x _ => optList_map_eq_some fun y _ =>
        genColumnOne_eq (heightOf_le_len (hb x y))
    · simp
    · intro row hrow
      obtain ⟨x, -, rfl⟩ := List.mem_map.mp hrow
      refine ⟨by simp, ?_⟩
      intro col hcol
      obtain ⟨y, -, rfl⟩ := List.mem_map.mp hcol
      have hle := @heightOf_le_len cfg.len (noise x y) (hb x y)
      simp only [List.length_append, List.length_replicate]
      omega
  · intro cfg wd sd hn ln g hgen
    unfold TerGenTwo.generate at hgen
    split at hgen
    · have hlen : g.length = cfg.len := by simpa using optList_length hgen
      refine ⟨hlen, ?_⟩
      intro row hrow
      have hmem := optList_mem hgen row hrow
      obtain ⟨x, -, hx⟩ := List.mem_map.mp hmem
      have hrlen : row.length = cfg.len := by simpa using optList_length hx
      refine ⟨hrlen, ?_⟩
      intro col hcol
      have hmem2 := optList_mem hx col hcol
      obtain ⟨y, -, hy⟩ := List.mem_map.mp hmem2
      exact genColumnTwo_length hy
    · cases hgen

/-- Witness for `generate_shape_cube`: the simple generator at edge
length 2 with zero noise, and the stratified generator on a run that
does return a grid (edge length 4). -/
theorem generate_shape_cube_witness :
    (∃ g, TerGenOne.generate { len := 2, frequency := 0 } (fun _ _ => 0) = some g ∧
       IsCube 2 g) ∧
    IsCube 4 (List.replicate 4 (List.replicate 4
      [Block.Rock, Block.Rock, Block.Air, Block.Air])) := by
  constructor
  · exact generate_shape_cube.1 { len := 2, frequency := 0 } (fun _ _ => 0)
      (fun _ _ => by norm_num)
  · refine generate_shape_cube.2
      { len := 4, frequency := 0, layer_height := 5,
        min_soil_cutoff := 3, max_water_level := 0 } 0 0
      (fun _ _ => 0) (fun _ _ => 0) _ ?_
    have h : heightOf 4 0 = 2 := by norm_num [heightOf, toUsize]; rfl
    have h2 : toUsize (0 * ((5 : Nat) : ℚ)) = 0 := by norm_num [toUsize]
    simp only [TerGenTwo.generate, h, h2]
    decide

/-- Claim **C4**: for the simple generator, every column holds Rock at exactly
the heights `z < height = ⌊L/2 + s·L/2⌋` (with `s` that column's noise
sample in `[-1, 1]`) and Air at and above `height`; in particular each
column's filled region is contiguous from `z = 0` upward. -/
theorem tergenone_column_profile (cfg : TerGenOne) (noise : Nat → Nat → ℚ)
    (hb : ∀ x y, -1 ≤ noise x y ∧ noise x y ≤ 1) :
    ∃ g, TerGenOne.generate cfg noise = some g ∧
      ∀ x y z, x < cfg.len → y < cfg.len → z < cfg.len →
        (voxelAt g x y z = Block.Rock ↔ z < heightOf cfg.len (noise x y)) ∧
        (heightOf cfg.len (noise x y) ≤ z → voxelAt g x y z = Block.Air) := by
  refine ⟨(List.range cfg.len).map fun x => (List.range cfg.len).map fun y =>
      List.replicate (heightOf cfg.len (noise x y)) Block.Rock ++
      List.replicate (cfg.len - heightOf cfg.len (noise x y)) Block.Air,
    ?_, ?_⟩
  · unfold TerGenOne.generate
    exact optList_map_eq_some fun x _ => optList_map_eq_some fun y _ =>
      genColumnOne_eq (heightOf_le_len (hb x y).2)
  · intro x y z hx hy hz
    unfold voxelAt
    rw [getD_map_range _ _ hx, getD_map_range _ _ hy, getD_replicate_append]
    by_cases hcz : z < heightOf cfg.len (noise x y)
    · rw [if_pos hcz]
      exact ⟨⟨fun _ => hcz, fun _ => rfl⟩, fun hge => absurd hcz (by omega)⟩
    · rw [if_neg hcz]
      have hair : (if z < heightOf cfg.len (noise x y) +
          (cfg.len - heightOf cfg.len (noise x y)) then Block.Air
          else Block.Air) = Block.Air := by
        split <;> rfl
      rw [hair]
      exact ⟨⟨fun hc => absurd hc (by decide), fun hlt => absurd hlt hcz⟩,
        fun _ => rfl⟩

/-- Witness for `tergenone_column_profile` at edge length 2 with zero
noise samples. -/
theorem tergenone_column_profile_witness :
    ∃ g, TerGenOne.generate { len := 2, frequency := 0 } (fun _ _ => 0) = some g ∧
      ∀ x y z, x < 2 → y < 2 → z < 2 →
        (voxelAt g x y z = Block.Rock ↔ z < heightOf 2 0) ∧
        (heightOf 2 0 ≤ z → voxelAt g x y z = Block.Air) :=
  tergenone_column_profile { len := 2, frequency := 0 } (fun _ _ => 0)
    (fun _ _ => by norm_num)

theorem mem_floorDraws {w len : Nat} {g : Grid} {origin : Int × Int} {z : Nat}
    {d : Draw} (h : d ∈ floorDraws w g len origin z) :
    d.z = z ∧ d.x < len ∧ d.y < len ∧
    d.dest = getTilePos w origin d.x d.y ∧
    d.block = voxelAt g d.x d.y z ∧ d.block ≠ Block.Air := by
  simp only [floorDraws, List.mem_flatMap, List.mem_range] at h
  obtain ⟨x, hx, y, hy, hd⟩ := h
  by_cases hair : voxelAt g x y z = Block.Air
  · rw [if_pos hair] at hd
    cases hd
  · rw [if_neg hair] at hd
    rw [List.mem_singleton] at hd
    subst hd
    exact ⟨rfl, hx, hy, rfl, rfl, hair⟩

theorem mem_renderFloors {w sH len : Nat} {g : Grid} :
    ∀ {n z : Nat} {origin : Int × Int} {d : Draw},
      d ∈ renderFloors w sH len g origin z n →
      z ≤ d.z ∧ d.z < z + n ∧ d.x < len ∧ d.y < len ∧
      d.dest = getTilePos w
        (origin.1, origin.2 - ((d.z - z : Nat) : Int) * (sH : Int)) d.x d.y ∧
      d.block = voxelAt g d.x d.y d.z ∧ d.block ≠ Block.Air := by
  intro n
  induction n with
  | zero => intro z origin d h; cases h
  | succ n ih =>
      intro z origin d h
      rw [renderFloors] at h
      rcases List.mem_append.mp h with h | h
      · obtain ⟨hz, hx, hy, hdest, hblock, hna⟩ := mem_floorDraws h
        subst hz
        refine ⟨le_refl _, by omega, hx, hy, ?_, hblock, hna⟩
        simpa [Nat.sub_self, Prod.mk.eta] using hdest
      · obtain ⟨hz1, hz2, hx, hy, hdest, hblock, hna⟩ := ih h
        refine ⟨by omega, by omega, hx, hy, ?_, hblock, hna⟩
        rw [hdest]
        have harith : (origin.2 - (sH : Int)) - ((d.z - (z + 1) : Nat) : Int) * (sH : Int) =
            origin.2 - ((d.z - z : Nat) : Int) * (sH : Int) := by
          have hc1 : ((d.z - (z + 1) : Nat) : Int) = (d.z : Int) - (z : Int) - 1 := by
            omega
          have hc2 : ((d.z - z : Nat) : Int) = (d.z : Int) - (z : Int) := by
            omega
          rw [hc1, hc2]
          ring
        rw [harith]

theorem renderFloors_pairwise {w sH len : Nat} {g : Grid} :
    ∀ {n z : Nat} {origin : Int × Int},
      (renderFloors w sH len g origin z n).Pairwise fun a b => a.z ≤ b.z := by
  intro n
  induction n with
  | zero => intro z origin; exact List.Pairwise.nil
  | succ n ih =>
      intro z origin
      rw [renderFloors, List.pairwise_append]
      refine ⟨?_, ih, ?_⟩
      · exact List.pairwise_of_forall_mem_list fun a ha b hb => by
          rw [(mem_floorDraws ha).1, (mem_floorDraws hb).1]
      · intro a ha b hb
        rw [(mem_floorDraws ha).1]
        have := (mem_renderFloors hb).1
        omega

/-- Claim **C6**: every blit issued by `render_map` lands at
`dx = (x - y)·(tile_width/2)`, `dy = (x + y)·(tile_width/4)` from the
origin of its layer, whose origin is the initial origin shifted up by
`z · sides_height`; consequently for the same `(x, y)` the destination
at layer `z + 1` is exactly `sides_height` pixels above that at layer
`z`, and the blits are emitted bottom layer first (z-nondecreasing). -/
theorem render_projection_and_layer_order (w h len : Nat) (g : Grid) :
    (∀ d ∈ renderDraws w h len g,
      d.dest = ((initialOrigin w h len).1 +
          ((d.x : Int) - (d.y : Int)) * ((w : Int) / 2),
        (initialOrigin w h len).2 - (d.z : Int) * ((sidesHeight w h : Nat) : Int) +
          ((d.x : Int) + (d.y : Int)) * ((w : Int) / 4))) ∧
    (∀ d ∈ renderDraws w h len g, ∀ e ∈ renderDraws w h len g,
      d.x = e.x → d.y = e.y → e.z = d.z + 1 →
      e.dest.1 = d.dest.1 ∧
      e.dest.2 = d.dest.2 - ((sidesHeight w h : Nat) : Int)) ∧
    (renderDraws w h len g).Pairwise fun a b => a.z ≤ b.z := by
  have hdest : ∀ d ∈ renderDraws w h len g,
      d.dest = ((initialOrigin w h len).1 +
          ((d.x : Int) - (d.y : Int)) * ((w : Int) / 2),
        (initialOrigin w h len).2 - (d.z : Int) * ((sidesHeight w h : Nat) : Int) +
          ((d.x : Int) + (d.y : Int)) * ((w : Int) / 4)) := by
    intro d hd
    have hm := (mem_renderFloors hd).2.2.2.2.1
    rw [hm]
    unfold getTilePos
    simp
  refine ⟨hdest, ?_, renderFloors_pairwise⟩
  intro d hd e he hxy hyy hze
  rw [hdest d hd, hdest e he, hxy, hyy, hze]
  constructor
  · rfl
  · push_cast
    ring

/-- Witness for `render_projection_and_layer_order`: a 2×2×2 grid whose
column `(0, 0)` holds two stacked Rock voxels, rendered with
24×26-pixel tiles; the `z = 1` blit of that column lands exactly
`sides_height = 14` pixels above the `z = 0` blit. -/
theorem render_projection_and_layer_order_witness :
    (⟨0, 0, 0, (36, 54), Block.Rock⟩ : Draw).dest =
      ((initialOrigin 24 26 2).1 + ((0 : Int) - (0 : Int)) * ((24 : Int) / 2),
       (initialOrigin 24 26 2).2 - (0 : Int) * ((sidesHeight 24 26 : Nat) : Int) +
         ((0 : Int) + (0 : Int)) * ((24 : Int) / 4)) ∧
    ((⟨1, 0, 0, (36, 40), Block.Rock⟩ : Draw).dest.1 =
      (⟨0, 0, 0, (36, 54), Block.Rock⟩ : Draw).dest.1 ∧
     (⟨1, 0, 0, (36, 40), Block.Rock⟩ : Draw).dest.2 =
      (⟨0, 0, 0, (36, 54), Block.Rock⟩ : Draw).dest.2 -
        ((sidesHeight 24 26 : Nat) : Int)) := by
  have hgrid : renderDraws 24 26 2
      [[[Block.Rock, Block.Rock], [Block.Air, Block.Air]],
       [[Block.Air, Block.Air], [Block.Air, Block.Air]]] =
      [⟨0, 0, 0, (36, 54), Block.Rock⟩, ⟨1, 0, 0, (36, 40), Block.Rock⟩] := by
    decide
  constructor
  · exact (render_projection_and_layer_order 24 26 2
      [[[Block.Rock, Block.Rock], [Block.Air, Block.Air]],
       [[Block.Air, Block.Air], [Block.Air, Block.Air]]]).1
      ⟨0, 0, 0, (36, 54), Block.Rock⟩ (by rw [hgrid]; decide)
  · exact (render_projection_and_layer_order 24 26 2
      [[[Block.Rock, Block.Rock], [Block.Air, Block.Air]],
       [[Block.Air, Block.Air], [Block.Air, Block.Air]]]).2.1
      ⟨0, 0, 0, (36, 54), Block.Rock⟩ (by rw [hgrid]; decide)
      ⟨1, 0, 0, (36, 40), Block.Rock⟩ (by rw [hgrid]; decide) rfl rfl rfl

/-- Claim **C8**: rendering never looks up the atlas nor issues a blit for an
Air voxel — every emitted draw is for a non-Air material — and an
all-Air grid is rendered with zero draws, regardless of tile size. -/
theorem render_skips_air (w h len : Nat) (g : Grid) :
    (∀ d ∈ renderDraws w h len g, d.block ≠ Block.Air) ∧
    ((∀ x y z, voxelAt g x y z = Block.Air) → renderDraws w h len g = []) := by
  constructor
  · intro d hd
    exact (mem_renderFloors hd).2.2.2.2.2.2
  · intro hall
    rw [List.eq_nil_iff_forall_not_mem]
    intro d hd
    obtain ⟨-, -, -, -, -, hblock, hna⟩ := mem_renderFloors hd
    exact hna (hblock.trans (hall _ _ _))

/-- Witness for `render_skips_air`: a 1×1×1 Rock grid produces only
non-Air draws, and a 1×1×1 Air grid produces no draws at all. -/
theorem render_skips_air_witness :
    (⟨0, 0, 0, (24, 40), Block.Rock⟩ : Draw).block ≠ Block.Air ∧
    renderDraws 24 26 1 [[[Block.Air]]] = [] := by
  constructor
  · exact (render_skips_air 24 26 1 [[[Block.Rock]]]).1
      ⟨0, 0, 0, (24, 40), Block.Rock⟩ (by decide)
  · refine (render_skips_air 24 26 1 [[[Block.Air]]]).2 ?_
    intro x y z
    unfold voxelAt
    rcases x with _ | x <;> rcases y with _ | y <;> rcases z with _ | z <;>
      simp [List.getD_eq_getElem?_getD, List.getElem?_cons_succ,
        List.getElem?_cons_zero, List.getElem?_nil]

theorem firstMissing_none {keys : List Block} :
    ∀ {bs : List Block}, firstMissing keys bs = none →
      ∀ b ∈ bs, b = Block.Air ∨ b ∈ keys := by
  intro bs
  induction bs with
  | nil => intro h b hb; cases hb
  | cons c t ih =>
      intro h b hb
      rw [firstMissing] at h
      by_cases hc : c = Block.Air
      · rw [if_pos hc] at h
        rcases List.mem_cons.mp hb with rfl | hb
        · exact Or.inl hc
        · exact ih h b hb
      · rw [if_neg hc] at h
        by_cases hk : c ∈ keys
        · rw [if_pos hk] at h
          rcases List.mem_cons.mp hb with rfl | hb
          · exact Or.inr hk
          · exact ih h b hb
        · rw [if_neg hk] at h
          cases h

theorem firstMissing_some {keys : List Block} :
    ∀ {bs : List Block} {b : Block}, firstMissing keys bs = some b →
      b ≠ Block.Air ∧ b ∉ keys := by
  intro bs
  induction bs with
  | nil => intro b h; cases h
  | cons c t ih =>
      intro b h
      rw [firstMissing] at h
      by_cases hc : c = Block.Air
      · rw [if_pos hc] at h
        exact ih h
      · rw [if_neg hc] at h
        by_cases hk : c ∈ keys
        · rw [if_pos hk] at h
          exact ih h
        · rw [if_neg hk] at h
          cases h
          exact ⟨hc, hk⟩

/-- Claim **C7**: atlas construction fails with the missing-tile error naming
an uncovered non-Air material whenever some material other than Air has
no registered tile, succeeds past that check when every non-Air
material has at least one tile, and Air itself is exempt (a returned
`MissingBlock` never names Air). -/
theorem atlas_missing_tile_check (cfg : TilesConfig) :
    ((∃ b, b ≠ Block.Air ∧ b ∉ (tilePairs cfg.files).map Prod.fst) →
      ∃ b, Renderer.from_config_str cfg =
          Except.error (ConfigLoadErrorKind.MissingBlock b) ∧
        b ≠ Block.Air ∧ b ∉ (tilePairs cfg.files).map Prod.fst) ∧
    ((∀ b, b ≠ Block.Air → b ∈ (tilePairs cfg.files).map Prod.fst) →
      Renderer.from_config_str cfg =
        Except.ok ⟨cfg.width, cfg.height, tilePairs cfg.files⟩) := by
  constructor
  · rintro ⟨b, hbna, hbnk⟩
    rcases hfm : firstMissing ((tilePairs cfg.files).map Prod.fst) allBlocks
      with _ | c
    · exfalso
      have hmem : b ∈ allBlocks := by cases b <;> simp [allBlocks]
      rcases firstMissing_none hfm b hmem with h | h
      · exact hbna h
      · exact hbnk h
    · obtain ⟨hcna, hcnk⟩ := firstMissing_some hfm
      refine ⟨c, ?_, hcna, hcnk⟩
      simp only [Renderer.from_config_str, hfm]
  · intro hall
    rcases hfm : firstMissing ((tilePairs cfg.files).map Prod.fst) allBlocks
      with _ | c
    · simp only [Renderer.from_config_str, hfm]
    · exfalso
      obtain ⟨hcna, hcnk⟩ := firstMissing_some hfm
      exact hcnk (hall c hcna)

/-- Witness for `atlas_missing_tile_check`: a descriptor covering only
Rock, Soil and Water fails naming a missing material (Grass is
uncovered), and a descriptor covering all four non-Air materials
passes the check. -/
theorem atlas_missing_tile_check_witness :
    (∃ b, Renderer.from_config_str (TilesConfig.mk 24 26
        [File.mk ("cubes.png") [TileDef.mk Block.Rock none none,
          TileDef.mk Block.Soil none none, TileDef.mk Block.Water none none]]
        ("assets")) = Except.error (ConfigLoadErrorKind.MissingBlock b) ∧
      b ≠ Block.Air ∧
      b ∉ (tilePairs [File.mk ("cubes.png") [TileDef.mk Block.Rock none none,
          TileDef.mk Block.Soil none none,
          TileDef.mk Block.Water none none]]).map Prod.fst) ∧
    Renderer.from_config_str (TilesConfig.mk 24 26
        [File.mk ("cubes.png") [TileDef.mk Block.Rock none none,
          TileDef.mk Block.Grass none none, TileDef.mk Block.Soil none none,
          TileDef.mk Block.Water none none]] ("assets")) =
      Except.ok (Renderer.mk 24 26 (tilePairs
        [File.mk ("cubes.png") [TileDef.mk Block.Rock none none,
          TileDef.mk Block.Grass none none, TileDef.mk Block.Soil none none,
          TileDef.mk Block.Water none none]])) := by
  constructor
  · exact (atlas_missing_tile_check _).1 ⟨Block.Grass, by decide, by decide⟩
  · exact (atlas_missing_tile_check _).2 (by decide)
